import Mathlib

/-!
Shallow embedding of the quadtree spatial index from src/src/quadtree.rs and
the shape objects from src/src/quad_objects.rs.

Conventions of the embedding:
  - Rust i32 becomes Int; Rust integer division (truncation toward zero)
    becomes Int.tdiv, written explicitly.
  - A Boid stores its position as f32 in the source, but the only view the
    index ever observes is the truncated i32 center (Boid::center casts with
    `as i32`, and Boid::is_overlap uses only that center).  The embedding
    therefore carries the integer center directly; fields the index never
    reads (facing, velocity, the red flag) are omitted.
  - The Rust TreeNode holds `objects: Option<Vec<_>>` and
    `leaves: [Option<Box<TreeNode>>; 4]`, with the invariant that a node is
    either a leaf (objects Some, leaves all None) or an internal node
    (objects None, leaves all Some).  Every operation of quadtree.rs unwraps
    under this invariant, so the embedding uses an inductive with exactly
    these two shapes.  (TreeNode::clear briefly leaves a malformed node, but
    QuadTree::clear immediately replaces all four top nodes, so that state
    is dead; QuadTree.clear below models the final state.)
  - The recursion of TreeNode::insert_object is not structurally bounded in
    the source (a split re-inserts five objects into fresh children, which
    can split in turn), so the embedding meters every nested insert call
    with explicit fuel and returns none when the fuel runs out.  The source
    terminates with result r iff the embedding returns some r for every
    large enough fuel; the source diverges iff the embedding returns none
    for all fuel.
-/

-- --------------------
-- TreeSurface (quadtree.rs lines 93-110)
-- --------------------

structure TreeSurface where
  x0 : Int
  y0 : Int
  x1 : Int
  y1 : Int
deriving DecidableEq, Repr

def TreeSurface.mx (s : TreeSurface) : Int :=
  Int.tdiv (s.x1 - s.x0) 2 + s.x0

def TreeSurface.my (s : TreeSurface) : Int :=
  Int.tdiv (s.y1 - s.y0) 2 + s.y0

def TreeSurface.mxy (s : TreeSurface) : Int × Int :=
  (s.mx, s.my)

-- --------------------
-- Shape objects (quad_objects.rs)
-- --------------------

/-- Rectangle (quad_objects.rs lines 126-221): used both as a stored object
and as the query shape handed to QuadTree::query_objects_in. -/
structure Rectangle where
  id : Nat
  x0 : Int
  y0 : Int
  x1 : Int
  y1 : Int
deriving DecidableEq, Repr

def Rectangle.to_tree_surface (r : Rectangle) : TreeSurface :=
  ⟨r.x0, r.y0, r.x1, r.y1⟩

/-- Rectangle::is_overlap (quad_objects.rs lines 196-205): strict
axis-aligned box intersection against a TreeSurface. -/
def Rectangle.is_overlap (r : Rectangle) (s : TreeSurface) : Bool :=
  r.x0 < s.x1 && r.x1 > s.x0 && r.y0 < s.y1 && r.y1 > s.y0

/-- The closed set of QuadObject implementers: Boid (point agent, observed
through its integer center), Rectangle, Circle. -/
inductive Obj where
  | boid (id : Nat) (x y : Int)
  | rectObj (r : Rectangle)
  | circle (id : Nat) (x y radius : Int)
deriving DecidableEq, Repr

def Obj.get_id : Obj → Nat
  | .boid i _ _ => i
  | .rectObj r => r.id
  | .circle i _ _ _ => i

/-- QuadObject::is_overlap, per variant (quad_objects.rs lines 87-90,
196-205, 250-258).  Boid: closed-interval point containment of the center.
Rectangle: strict box intersection.  Circle: clamp the center into the
surface and compare squared distance with the squared radius. -/
def Obj.is_overlap : Obj → TreeSurface → Bool
  | .boid _ x y, s => s.x0 ≤ x && x ≤ s.x1 && s.y0 ≤ y && y ≤ s.y1
  | .rectObj r, s => r.is_overlap s
  | .circle _ x y radius, s =>
      let xn := max s.x0 (min x s.x1)
      let yn := max s.y0 (min y s.y1)
      let dx := xn - x
      let dy := yn - y
      dx ^ 2 + dy ^ 2 ≤ radius ^ 2

/-- Rectangle::is_rect_overlap (quad_objects.rs lines 153-156): delegate to
the overlap test of the object itself against the surface of the rectangle. -/
def Rectangle.is_rect_overlap (r : Rectangle) (o : Obj) : Bool :=
  o.is_overlap r.to_tree_surface

-- --------------------
-- assign_object_to_grid (quadtree.rs lines 17-34)
-- --------------------

/-- assign_object_to_grid: the list of quadrant indices (0 TL, 1 TR, 2 BL,
3 BR) whose sub-surface the object overlaps, in increasing order. -/
def assign_object_to_grid (s : TreeSurface) (o : Obj) : List Nat :=
  let mx := s.mx
  let my := s.my
  (if o.is_overlap ⟨s.x0, s.y0, mx - 1, my - 1⟩ then [0] else []) ++
  (if o.is_overlap ⟨mx, s.y0, s.x1, my - 1⟩ then [1] else []) ++
  (if o.is_overlap ⟨s.x0, my, mx - 1, s.y1⟩ then [2] else []) ++
  (if o.is_overlap ⟨mx, my, s.x1, s.y1⟩ then [3] else [])

-- --------------------
-- TreeNode (quadtree.rs lines 121-228)
-- --------------------

def MAX_OBJECTS_PER_NODE : Nat := 4

inductive TreeNode where
  | leaf (depth : Int) (surface : TreeSurface) (objects : List Obj)
  | internal (depth : Int) (surface : TreeSurface) (tl tr bl br : TreeNode)
deriving DecidableEq, Repr

def TreeNode.surface : TreeNode → TreeSurface
  | .leaf _ s _ => s
  | .internal _ s _ _ _ _ => s

/-- TreeNode::new (quadtree.rs lines 140-148): a fresh leaf with an empty
bucket. -/
def TreeNode.fresh (depth : Int) (ox oy ix iy : Int) : TreeNode :=
  .leaf depth ⟨ox, oy, ix, iy⟩ []

/-- One step of the `match value` dispatch inside TreeNode::insert_object
(quadtree.rs lines 178-194): insert into the child selected by the grid
index; any other index is a no-op. -/
def insertAt (ins : TreeNode → Option TreeNode) (i : Nat)
    (c : TreeNode × TreeNode × TreeNode × TreeNode) :
    Option (TreeNode × TreeNode × TreeNode × TreeNode) :=
  match i with
  | 0 => (ins c.1).map (fun x => (x, c.2.1, c.2.2.1, c.2.2.2))
  | 1 => (ins c.2.1).map (fun x => (c.1, x, c.2.2.1, c.2.2.2))
  | 2 => (ins c.2.2.1).map (fun x => (c.1, c.2.1, x, c.2.2.2))
  | 3 => (ins c.2.2.2).map (fun x => (c.1, c.2.1, c.2.2.1, x))
  | _ => some c

/-- The loop over the grid-index list: insert the object into each listed
child in order, threading the updated children. -/
def insertGridList (ins : TreeNode → Option TreeNode) :
    List Nat → TreeNode × TreeNode × TreeNode × TreeNode →
    Option (TreeNode × TreeNode × TreeNode × TreeNode)
  | [], c => some c
  | i :: rest, c => (insertAt ins i c).bind (fun c2 => insertGridList ins rest c2)

/-- The redistribution loop of TreeNode::switch_object_to_leaves (quadtree.rs
lines 212-224): every bucketed object (the four existing ones plus the
extra) is inserted into each child whose quadrant it overlaps. -/
def switchFold (ins : TreeNode → Obj → Option TreeNode) (s : TreeSurface) :
    List Obj → TreeNode × TreeNode × TreeNode × TreeNode →
    Option (TreeNode × TreeNode × TreeNode × TreeNode)
  | [], c => some c
  | o :: rest, c =>
      (insertGridList (fun t => ins t o) (assign_object_to_grid s o) c).bind
        (fun c2 => switchFold ins s rest c2)

/-- TreeNode::insert_object (quadtree.rs lines 164-196) together with
switch_object_to_leaves (lines 199-227), metered by fuel.  On a leaf whose
bucket holds exactly MAX_OBJECTS_PER_NODE objects the node splits
unconditionally: four fresh children are created with the midpoint split
(the low quadrants end at mx-1 and my-1), and all five objects are
redistributed.  There is no minimum-extent or maximum-depth guard in the
source. -/
def TreeNode.insert_object : Nat → TreeNode → Obj → Option TreeNode
  | 0, _, _ => none
  | fuel + 1, .leaf d s objs, o =>
      if objs.length = MAX_OBJECTS_PER_NODE then
        (switchFold (TreeNode.insert_object fuel) s (objs ++ [o])
            (.leaf (d + 1) ⟨s.x0, s.y0, s.mx - 1, s.my - 1⟩ [],
             .leaf (d + 1) ⟨s.mx, s.y0, s.x1, s.my - 1⟩ [],
             .leaf (d + 1) ⟨s.x0, s.my, s.mx - 1, s.y1⟩ [],
             .leaf (d + 1) ⟨s.mx, s.my, s.x1, s.y1⟩ [])).map
          (fun c => .internal d s c.1 c.2.1 c.2.2.1 c.2.2.2)
      else
        some (.leaf d s (objs ++ [o]))
  | fuel + 1, .internal d s tl tr bl br, o =>
      (insertGridList (fun t => TreeNode.insert_object fuel t o)
          (assign_object_to_grid s o) (tl, tr, bl, br)).map
        (fun c => .internal d s c.1 c.2.1 c.2.2.1 c.2.2.2)

-- --------------------
-- QuadTree (quadtree.rs lines 39-87)
-- --------------------

/-- The QuadTree owns four top-level nodes (there is no single root node in
the source) plus the outer surface. -/
structure QuadTree where
  top_left : TreeNode
  top_right : TreeNode
  bottom_left : TreeNode
  bottom_right : TreeNode
  surface : TreeSurface
deriving DecidableEq, Repr

/-- QuadTree::new (quadtree.rs lines 54-65). -/
def QuadTree.new (x0 y0 width height : Int) : QuadTree :=
  let s : TreeSurface := ⟨x0, y0, x0 + width, y0 + height⟩
  let mx := s.mx
  let my := s.my
  ⟨TreeNode.fresh 1 s.x0 s.y0 (mx - 1) (my - 1),
   TreeNode.fresh 1 mx s.y0 s.x1 (my - 1),
   TreeNode.fresh 1 s.x0 my (mx - 1) s.y1,
   TreeNode.fresh 1 mx my s.x1 s.y1,
   s⟩

/-- QuadTree::clear (quadtree.rs lines 67-78): all four top nodes are
replaced by fresh leaves.  NOTE the source passes mx (not mx - 1) as the far
x edge of the new bottom_left node (line 76), unlike QuadTree::new. -/
def QuadTree.clear (t : QuadTree) : QuadTree :=
  let mx := t.surface.mx
  let my := t.surface.my
  ⟨TreeNode.fresh 1 t.surface.x0 t.surface.y0 (mx - 1) (my - 1),
   TreeNode.fresh 1 mx t.surface.y0 t.surface.x1 (my - 1),
   TreeNode.fresh 1 t.surface.x0 my mx t.surface.y1,
   TreeNode.fresh 1 mx my t.surface.x1 t.surface.y1,
   t.surface⟩

/-- QuadTree::insert_object (quadtree.rs lines 80-86): the object goes into
each top-level node whose grid quadrant it overlaps; an object overlapping
no quadrant is silently dropped. -/
def QuadTree.insert_object (fuel : Nat) (t : QuadTree) (o : Obj) : Option QuadTree :=
  let g := assign_object_to_grid t.surface o
  (if g.contains 0 then TreeNode.insert_object fuel t.top_left o else some t.top_left).bind fun a =>
  (if g.contains 1 then TreeNode.insert_object fuel t.top_right o else some t.top_right).bind fun b =>
  (if g.contains 2 then TreeNode.insert_object fuel t.bottom_left o else some t.bottom_left).bind fun c =>
  (if g.contains 3 then TreeNode.insert_object fuel t.bottom_right o else some t.bottom_right).bind fun d =>
  some ⟨a, b, c, d, t.surface⟩

/-- A finite sequence of QuadTree::insert_object calls, in order. -/
def QuadTree.insert_seq (fuel : Nat) : QuadTree → List Obj → Option QuadTree
  | t, [] => some t
  | t, o :: rest =>
      (QuadTree.insert_object fuel t o).bind (fun t2 => QuadTree.insert_seq fuel t2 rest)

/-- One frame-style rebuild (main_loop.rs update, quadtree.rs clear):
clear then reinsert the whole object list. -/
def quad_rebuild (fuel : Nat) (t : QuadTree) (objs : List Obj) : Option QuadTree :=
  QuadTree.insert_seq fuel (QuadTree.clear t) objs

-- --------------------
-- Stats (quadtree.rs lines 233-289)
-- --------------------

def TreeNode.node_count : TreeNode → Int
  | .leaf _ _ _ => 1
  | .internal _ _ tl tr bl br =>
      tl.node_count + tr.node_count + bl.node_count + br.node_count + 1

def TreeNode.deepest_node : TreeNode → Int
  | .leaf d _ _ => d
  | .internal _ _ tl tr bl br =>
      max (max (max tl.deepest_node tr.deepest_node) bl.deepest_node) br.deepest_node

def TreeNode.object_count : TreeNode → Int
  | .leaf _ _ objs => (objs.length : Int)
  | .internal _ _ tl tr bl br =>
      tl.object_count + tr.object_count + bl.object_count + br.object_count

def QuadTree.node_count (t : QuadTree) : Int :=
  t.top_left.node_count + t.top_right.node_count +
  t.bottom_left.node_count + t.bottom_right.node_count

def QuadTree.deepest_node (t : QuadTree) : Int :=
  max (max t.top_left.deepest_node t.top_right.deepest_node)
      (max t.bottom_left.deepest_node t.bottom_right.deepest_node)

def QuadTree.object_count (t : QuadTree) : Int :=
  t.top_left.object_count + t.top_right.object_count +
  t.bottom_left.object_count + t.bottom_right.object_count

-- --------------------
-- Queries (quadtree.rs lines 294-327)
-- --------------------

/-- TreeNode::query_surface (quadtree.rs lines 313-327): at a leaf, keep the
bucketed objects passing is_rect_overlap; at an internal node, recurse into
ALL four children unconditionally (the source performs no pruning below the
top level). -/
def TreeNode.query_surface : TreeNode → Rectangle → List Obj
  | .leaf _ _ objs, q => objs.filter (fun o => q.is_rect_overlap o)
  | .internal _ _ tl tr bl br, q =>
      tl.query_surface q ++ tr.query_surface q ++ bl.query_surface q ++ br.query_surface q

/-- QuadTree::query_objects_in (quadtree.rs lines 295-310): descend into a
top-level node only when the query rectangle overlaps its surface. -/
def QuadTree.query_objects_in (t : QuadTree) (q : Rectangle) : List Obj :=
  (if q.is_overlap t.top_left.surface then t.top_left.query_surface q else []) ++
  (if q.is_overlap t.top_right.surface then t.top_right.query_surface q else []) ++
  (if q.is_overlap t.bottom_left.surface then t.bottom_left.query_surface q else []) ++
  (if q.is_overlap t.bottom_right.surface then t.bottom_right.query_surface q else [])

/-- Instrumented traversal mirroring TreeNode::query_surface step for step:
record each leaf whose object bucket the query examines (surface paired with
bucket), descending into every child of an internal node exactly as the
source does. -/
def TreeNode.visited_buckets : TreeNode → Rectangle → List (TreeSurface × List Obj)
  | .leaf _ s objs, _ => [(s, objs)]
  | .internal _ _ tl tr bl br, q =>
      tl.visited_buckets q ++ tr.visited_buckets q ++
      bl.visited_buckets q ++ br.visited_buckets q

/-- Instrumented traversal mirroring QuadTree::query_objects_in: a top-level
node is traversed only when the query overlaps its surface. -/
def QuadTree.visited_buckets (t : QuadTree) (q : Rectangle) :
    List (TreeSurface × List Obj) :=
  (if q.is_overlap t.top_left.surface then t.top_left.visited_buckets q else []) ++
  (if q.is_overlap t.top_right.surface then t.top_right.visited_buckets q else []) ++
  (if q.is_overlap t.bottom_left.surface then t.bottom_left.visited_buckets q else []) ++
  (if q.is_overlap t.bottom_right.surface then t.bottom_right.visited_buckets q else [])

/-- All objects stored in the buckets of a node, in traversal order. -/
def TreeNode.all_objects : TreeNode → List Obj
  | .leaf _ _ objs => objs
  | .internal _ _ tl tr bl br =>
      tl.all_objects ++ tr.all_objects ++ bl.all_objects ++ br.all_objects

def QuadTree.all_objects (t : QuadTree) : List Obj :=
  t.top_left.all_objects ++ t.top_right.all_objects ++
  t.bottom_left.all_objects ++ t.bottom_right.all_objects

/-- The list of leaf buckets of a node. -/
def TreeNode.leaf_buckets : TreeNode → List (List Obj)
  | .leaf _ _ objs => [objs]
  | .internal _ _ tl tr bl br =>
      tl.leaf_buckets ++ tr.leaf_buckets ++ bl.leaf_buckets ++ br.leaf_buckets

def QuadTree.leaf_buckets (t : QuadTree) : List (List Obj) :=
  t.top_left.leaf_buckets ++ t.top_right.leaf_buckets ++
  t.bottom_left.leaf_buckets ++ t.bottom_right.leaf_buckets

/-- Modelled from the spec: the brute-force reference query the spec
compares queryRegion against, filtering all inserted objects by the same
overlap predicate, namely each object is_overlap tested against the query
region of the query rectangle. -/
def brute_force_query (q : Rectangle) (objs : List Obj) : List Obj :=
  objs.filter (fun o => q.is_rect_overlap o)

-- --------------------
-- Concrete instances used by the claims
-- --------------------

/-- A fresh index over the outer region (0,0)-(100,100). -/
def fresh100 : QuadTree := QuadTree.new 0 0 100 100

/-- A rectangle object sitting exactly on the seam between the low and high
quadrant columns: x from 49 to 50 while the top-left quadrant ends at 49 and
the top-right begins at 50, so the strict rectangle-overlap test rejects
both sides. -/
def gapRect : Obj := Obj.rectObj ⟨0, 49, 0, 50, 10⟩

/-- A query rectangle covering the whole outer region (0,0)-(100,100). -/
def queryAll : Rectangle := ⟨99, 0, 0, 100, 100⟩

/-- A circle centered exactly on the midpoint (50,50) of the outer region,
with nonzero radius: it straddles all four quadrants. -/
def midCircle : Obj := Obj.circle 0 50 50 5

/-- The tree obtained by inserting midCircle into fresh100: the circle is
referenced from all four top-level leaves. -/
def midCircleTree : QuadTree :=
  ⟨.leaf 1 ⟨0, 0, 49, 49⟩ [midCircle],
   .leaf 1 ⟨50, 0, 100, 49⟩ [midCircle],
   .leaf 1 ⟨0, 50, 49, 100⟩ [midCircle],
   .leaf 1 ⟨50, 50, 100, 100⟩ [midCircle],
   ⟨0, 0, 100, 100⟩⟩

/-- The five point agents of the concrete scenario in the spec. -/
def fiveAgents : List Obj :=
  [Obj.boid 0 10 10, Obj.boid 1 10 20, Obj.boid 2 10 30, Obj.boid 3 10 40,
   Obj.boid 4 90 90]

/-- The tree the source actually produces from the five-agent scenario:
four clustered agents fill the top-left leaf, the fifth sits alone in the
bottom-right leaf, and no node ever splits. -/
def fiveAgentTree : QuadTree :=
  ⟨.leaf 1 ⟨0, 0, 49, 49⟩
      [Obj.boid 0 10 10, Obj.boid 1 10 20, Obj.boid 2 10 30, Obj.boid 3 10 40],
   .leaf 1 ⟨50, 0, 100, 49⟩ [],
   .leaf 1 ⟨0, 50, 49, 100⟩ [],
   .leaf 1 ⟨50, 50, 100, 100⟩ [Obj.boid 4 90 90],
   ⟨0, 0, 100, 100⟩⟩

/-- A fresh index over (0,0)-(400,400), large enough that its top-left node
can split without degenerating. -/
def fresh400 : QuadTree := QuadTree.new 0 0 400 400

/-- Five agents that force the top-left node of fresh400 to split: four
coincident at (10,10) and a fifth at (150,150). -/
def splitObjects : List Obj :=
  [Obj.boid 0 10 10, Obj.boid 1 10 10, Obj.boid 2 10 10, Obj.boid 3 10 10,
   Obj.boid 4 150 150]

/-- The tree produced from splitObjects: the top-left node is internal with
the four coincident agents in its first child and the fifth agent in its
fourth child. -/
def splitTree : QuadTree :=
  ⟨.internal 1 ⟨0, 0, 199, 199⟩
      (.leaf 2 ⟨0, 0, 98, 98⟩
        [Obj.boid 0 10 10, Obj.boid 1 10 10, Obj.boid 2 10 10, Obj.boid 3 10 10])
      (.leaf 2 ⟨99, 0, 199, 98⟩ [])
      (.leaf 2 ⟨0, 99, 98, 199⟩ [])
      (.leaf 2 ⟨99, 99, 199, 199⟩ [Obj.boid 4 150 150]),
   .leaf 1 ⟨200, 0, 400, 199⟩ [],
   .leaf 1 ⟨0, 200, 199, 400⟩ [],
   .leaf 1 ⟨200, 200, 400, 400⟩ [],
   ⟨0, 0, 400, 400⟩⟩

/-- A small query rectangle overlapping only the first grandchild of
splitTree. -/
def smallQuery : Rectangle := ⟨9, 5, 5, 20, 20⟩

/-- A full leaf at depth 10 whose region (0,0)-(2,2) has both dimensions
equal to 2, holding four point agents at (0,0). -/
def smallFullLeaf : TreeNode :=
  .leaf 10 ⟨0, 0, 2, 2⟩ [Obj.boid 0 0 0, Obj.boid 0 0 0, Obj.boid 0 0 0, Obj.boid 0 0 0]

/-- What inserting a fifth agent at (2,2) into smallFullLeaf produces: an
unconditional split with children at depth 11. -/
def smallSplitResult : TreeNode :=
  .internal 10 ⟨0, 0, 2, 2⟩
    (.leaf 11 ⟨0, 0, 0, 0⟩ [Obj.boid 0 0 0, Obj.boid 0 0 0, Obj.boid 0 0 0, Obj.boid 0 0 0])
    (.leaf 11 ⟨1, 0, 2, 0⟩ [])
    (.leaf 11 ⟨0, 1, 0, 2⟩ [])
    (.leaf 11 ⟨1, 1, 2, 2⟩ [Obj.boid 1 2 2])

-- --------------------
-- Claim theorems: concrete counterexamples and evaluations
-- --------------------

/-- C1 counterexample: the rectangle gapRect straddles the seam between the
quadrant columns, overlaps no quadrant under the strict rectangle test, and
is silently dropped by insertion; a query covering the whole region then
returns the empty set while the brute-force filter of the inserted objects
returns the rectangle, so the two do not agree as sets of identities. -/
theorem c1_counterexample :
    QuadTree.insert_object 5 fresh100 gapRect = some fresh100 ∧
    QuadTree.query_objects_in fresh100 queryAll = [] ∧
    brute_force_query queryAll [gapRect] = [gapRect] ∧
    (QuadTree.query_objects_in fresh100 queryAll).map Obj.get_id ≠
      (brute_force_query queryAll [gapRect]).map Obj.get_id := by
  decide

/-- C2 counterexample: a circle centered exactly on the midpoint with
nonzero radius is inserted into all four top-level leaves, and a query
covering the whole region returns it four times, not once: the source
performs no deduplication. -/
theorem c2_counterexample :
    QuadTree.insert_object 5 fresh100 midCircle = some midCircleTree ∧
    (QuadTree.query_objects_in midCircleTree queryAll).count midCircle = 4 ∧
    (QuadTree.query_objects_in midCircleTree queryAll).count midCircle ≠ 1 := by
  decide

/-- C4: inserting a fifth object into a full leaf at depth 10 whose region
dimensions are exactly 2 (not exceeding the minimum extent the claim
requires) splits the node anyway and produces children at depth 11, because
the source has no minimum-extent or maximum-depth guard. -/
theorem c4_split_guard_missing :
    TreeNode.insert_object 5 smallFullLeaf (Obj.boid 1 2 2) = some smallSplitResult ∧
    smallSplitResult.deepest_node = 11 := by
  decide

/-- C5: after clear() the bottom-left node covers (0,50)-(50,100) because
the source passes mx instead of mx - 1 as its far x edge, while a freshly
constructed index over the same region gives the bottom-left node
(0,50)-(49,100); the cleared index is therefore not identical to a fresh
one. -/
theorem c5_clear_region_mismatch :
    (QuadTree.clear fresh100).bottom_left = TreeNode.leaf 1 ⟨0, 50, 50, 100⟩ [] ∧
    fresh100.bottom_left = TreeNode.leaf 1 ⟨0, 50, 49, 100⟩ [] ∧
    QuadTree.clear fresh100 ≠ fresh100 := by
  decide

/-- C6 counterexample: in splitTree the top-left node is internal; querying
with smallQuery (which overlaps only the first grandchild region) still
examines the bucket of the grandchild with region (99,99)-(199,199), whose
region does not overlap the query: the source does not prune below the top
level. -/
theorem c6_counterexample :
    QuadTree.insert_seq 5 fresh400 splitObjects = some splitTree ∧
    (⟨99, 99, 199, 199⟩, [Obj.boid 4 150 150]) ∈ QuadTree.visited_buckets splitTree smallQuery ∧
    smallQuery.is_overlap ⟨99, 99, 199, 199⟩ = false := by
  decide

/-- C7 counterexample: in the five-agent scenario of the spec the fifth insertion
does not force a split: the four clustered agents fill the top-left leaf and
the fifth lands in the bottom-right leaf, so the node count stays 4 (not the
claimed 1 root plus 4 children) and the top-left node is still a leaf. -/
theorem c7_counterexample :
    QuadTree.insert_seq 10 fresh100 fiveAgents = some fiveAgentTree ∧
    fiveAgentTree.node_count = 4 ∧
    fiveAgentTree.node_count ≠ 5 ∧
    fiveAgentTree.top_left = TreeNode.leaf 1 ⟨0, 0, 49, 49⟩
      [Obj.boid 0 10 10, Obj.boid 1 10 20, Obj.boid 2 10 30, Obj.boid 3 10 40] := by
  decide

/-- C7 amended: the index has four top-level leaves and no root node; the
four clustered agents land only in the top-left leaf (the node covering
x in [0,49], y in [0,49]), the fifth agent lands in the bottom-right leaf
alone, no split occurs, and every node is still a leaf at depth 1. -/
theorem c7_no_split_scenario :
    QuadTree.insert_seq 10 fresh100 fiveAgents = some fiveAgentTree ∧
    fiveAgentTree.deepest_node = 1 ∧
    fiveAgentTree.bottom_right = TreeNode.leaf 1 ⟨50, 50, 100, 100⟩ [Obj.boid 4 90 90] ∧
    fiveAgentTree.top_right = TreeNode.leaf 1 ⟨50, 0, 100, 49⟩ [] ∧
    fiveAgentTree.bottom_left = TreeNode.leaf 1 ⟨0, 50, 49, 100⟩ [] := by
  decide

-- --------------------
-- General lemmas and remaining claim theorems
-- --------------------

/-- C8: an object whose grid assignment is empty (it overlaps the region of
no quadrant) is silently dropped: QuadTree::insert_object touches no child
and the tree is returned completely unchanged, so node count, object count
and deepest-node statistics are trivially the same before and after. -/
theorem c8_silent_drop (fuel : Nat) (t : QuadTree) (o : Obj)
    (h : assign_object_to_grid t.surface o = []) :
    QuadTree.insert_object fuel t o = some t := by
  cases t with
  | mk tl tr bl br s =>
    simp only [QuadTree.insert_object] at h ⊢
    simp [h]

/-- C8 witness: the seam-straddling rectangle gapRect overlaps no quadrant
of the fresh (0,0)-(100,100) index and is dropped without changing it. -/
theorem c8_silent_drop_witness :
    QuadTree.insert_object 7 fresh100 gapRect = some fresh100 :=
  c8_silent_drop 7 fresh100 gapRect (by decide)

/-- The per-node object count of the source recursion equals the sum of the
bucket lengths over the leaves of the node. -/
theorem tree_object_count_buckets (n : TreeNode) :
    n.object_count = ((n.leaf_buckets).map (fun b => (b.length : Int))).sum := by
  induction n with
  | leaf d s objs => simp [TreeNode.object_count, TreeNode.leaf_buckets]
  | internal d s tl tr bl br ih1 ih2 ih3 ih4 =>
      simp only [TreeNode.object_count, TreeNode.leaf_buckets, ih1, ih2, ih3, ih4,
        List.map_append, List.sum_append]

/-- C10: the exposed object_count equals the sum of bucket lengths over all
leaves, so an object stored in n leaves contributes n; concretely, the
midpoint circle is a single inserted object stored in four leaves and the
statistic reports 4, exceeding the one distinct inserted object. -/
theorem c10_object_count_sums_buckets :
    (∀ t : QuadTree,
        t.object_count = ((t.leaf_buckets).map (fun b => (b.length : Int))).sum) ∧
    QuadTree.insert_object 7 fresh100 midCircle = some midCircleTree ∧
    midCircleTree.object_count = 4 ∧ (1 : Int) < midCircleTree.object_count := by
  refine ⟨fun t => ?_, by decide, by decide, by decide⟩
  simp only [QuadTree.object_count, QuadTree.leaf_buckets, tree_object_count_buckets,
    List.map_append, List.sum_append]

/-- C6 amended: pruning does happen at the four top-level nodes of the
QuadTree; a query rectangle overlapping none of the four top-level regions
returns the empty set and examines no leaf bucket at all. -/
theorem c6_top_level_prune (t : QuadTree) (q : Rectangle)
    (h1 : q.is_overlap t.top_left.surface = false)
    (h2 : q.is_overlap t.top_right.surface = false)
    (h3 : q.is_overlap t.bottom_left.surface = false)
    (h4 : q.is_overlap t.bottom_right.surface = false) :
    QuadTree.visited_buckets t q = [] ∧ QuadTree.query_objects_in t q = [] := by
  simp [QuadTree.visited_buckets, QuadTree.query_objects_in, h1, h2, h3, h4]

/-- A query rectangle far outside the (0,0)-(400,400) world. -/
def farQuery : Rectangle := ⟨8, 500, 500, 600, 600⟩

/-- C6 witness: farQuery overlaps none of the four top-level splitTree
regions, so the query is empty and no leaf bucket is examined. -/
theorem c6_top_level_prune_witness :
    QuadTree.visited_buckets splitTree farQuery = [] ∧
    QuadTree.query_objects_in splitTree farQuery = [] :=
  c6_top_level_prune splitTree farQuery (by decide) (by decide) (by decide) (by decide)

/-- QuadTree::insert_object never changes the outer surface. -/
theorem insert_object_surface (fuel : Nat) (t t2 : QuadTree) (o : Obj)
    (h : QuadTree.insert_object fuel t o = some t2) : t2.surface = t.surface := by
  simp only [QuadTree.insert_object, Option.bind_eq_some] at h
  rcases h with ⟨a, _, b, _, c, _, d, _, h⟩
  cases h
  rfl

/-- A sequence of insertions never changes the outer surface. -/
theorem insert_seq_surface (fuel : Nat) (objs : List Obj) : ∀ (t t2 : QuadTree),
    QuadTree.insert_seq fuel t objs = some t2 → t2.surface = t.surface := by
  induction objs with
  | nil =>
      intro t t2 h
      simp only [QuadTree.insert_seq, Option.some.injEq] at h
      rw [← h]
  | cons o rest ih =>
      intro t t2 h
      simp only [QuadTree.insert_seq, Option.bind_eq_some] at h
      rcases h with ⟨tm, hm, hrest⟩
      exact (ih tm t2 hrest).trans (insert_object_surface fuel t tm o hm)

/-- QuadTree::clear depends only on the stored outer surface. -/
theorem clear_congr (t t2 : QuadTree) (h : t2.surface = t.surface) :
    QuadTree.clear t2 = QuadTree.clear t := by
  simp only [QuadTree.clear, h]

/-- C9: rebuilding is idempotent: if clear-then-reinsert of an object list
turns t into t2, then clear-then-reinsert of the same list turns t2 into t2
again, so node count, object count and deepest node agree on both occasions
(both rebuilds produce the identical tree t2). -/
theorem c9_rebuild_idempotent (fuel : Nat) (t t2 : QuadTree) (objs : List Obj)
    (h : quad_rebuild fuel t objs = some t2) :
    quad_rebuild fuel t2 objs = some t2 := by
  have hs : t2.surface = t.surface :=
    insert_seq_surface fuel objs (QuadTree.clear t) t2 h
  unfold quad_rebuild at h ⊢
  rw [clear_congr t t2 hs]
  exact h

/-- The objects of the C9 witness rebuild. -/
def rebuildObjs : List Obj := [Obj.boid 0 10 10, Obj.circle 1 50 50 5]

/-- The tree obtained by rebuilding fresh100 with rebuildObjs (note the
bottom-left region (0,50)-(50,100) produced by clear). -/
def rebuiltTree : QuadTree :=
  ⟨.leaf 1 ⟨0, 0, 49, 49⟩ [Obj.boid 0 10 10, Obj.circle 1 50 50 5],
   .leaf 1 ⟨50, 0, 100, 49⟩ [Obj.circle 1 50 50 5],
   .leaf 1 ⟨0, 50, 50, 100⟩ [Obj.circle 1 50 50 5],
   .leaf 1 ⟨50, 50, 100, 100⟩ [Obj.circle 1 50 50 5],
   ⟨0, 0, 100, 100⟩⟩

/-- C9 witness: rebuilding the already-rebuilt tree with the same object
list reproduces it exactly. -/
theorem c9_rebuild_idempotent_witness :
    quad_rebuild 10 rebuiltTree rebuildObjs = some rebuiltTree :=
  c9_rebuild_idempotent 10 fresh100 rebuiltTree rebuildObjs (by decide)

/-- Counting an object in a filtered list: present iff it passes the
predicate, with unchanged multiplicity. -/
theorem count_filter_ite (p : Obj → Bool) (o : Obj) (l : List Obj) :
    (l.filter p).count o = if p o then l.count o else 0 := by
  induction l with
  | nil => simp
  | cons hd tl ih =>
      by_cases hhd : hd = o
      · subst hhd
        cases hp : p hd <;> simp [List.filter_cons, List.count_cons, hp, ih]
      · cases hp : p hd <;>
          simp [List.filter_cons, List.count_cons, hp, ih, hhd, Ne.symm hhd]

/-- Multiplicity returned by TreeNode::query_surface: when the object
overlaps the query it is reported once per copy in every bucket the
traversal examines, otherwise never. -/
theorem tree_query_count (n : TreeNode) (q : Rectangle) (o : Obj) :
    (n.query_surface q).count o =
      if q.is_rect_overlap o then
        ((n.visited_buckets q).map (fun p => p.2.count o)).sum
      else 0 := by
  induction n with
  | leaf d s objs =>
      simp [TreeNode.query_surface, TreeNode.visited_buckets, count_filter_ite]
  | internal d s tl tr bl br ih1 ih2 ih3 ih4 =>
      cases hP : q.is_rect_overlap o <;>
        simp [TreeNode.query_surface, TreeNode.visited_buckets, List.count_append,
          ih1, ih2, ih3, ih4, hP]

/-- C2 amended: query_objects_in does not deduplicate; for every tree, query
rectangle and object, the number of entries for that object in the query
result equals the total number of copies of it held in the leaf buckets the
traversal examines (and is 0 when the object does not overlap the query), so
an object referenced from k examined leaves is reported k times. -/
theorem c2_count_per_visited_leaf (t : QuadTree) (q : Rectangle) (o : Obj) :
    (t.query_objects_in q).count o =
      if q.is_rect_overlap o then
        ((t.visited_buckets q).map (fun p => p.2.count o)).sum
      else 0 := by
  cases hP : q.is_rect_overlap o <;>
    cases h1 : q.is_overlap t.top_left.surface <;>
    cases h2 : q.is_overlap t.top_right.surface <;>
    cases h3 : q.is_overlap t.bottom_left.surface <;>
    cases h4 : q.is_overlap t.bottom_right.surface <;>
      simp [QuadTree.query_objects_in, QuadTree.visited_buckets, List.count_append,
        tree_query_count, hP, h1, h2, h3, h4]

/-- Everything TreeNode::query_surface returns passes the overlap predicate
and is stored in one of the buckets of the node. -/
theorem tree_query_sound (n : TreeNode) (q : Rectangle) (o : Obj)
    (h : o ∈ n.query_surface q) :
    q.is_rect_overlap o = true ∧ o ∈ n.all_objects := by
  induction n with
  | leaf d s objs =>
      simp only [TreeNode.query_surface, List.mem_filter] at h
      exact ⟨h.2, by simpa [TreeNode.all_objects] using h.1⟩
  | internal d s tl tr bl br ih1 ih2 ih3 ih4 =>
      simp only [TreeNode.query_surface, List.mem_append] at h
      simp only [TreeNode.all_objects, List.mem_append]
      rcases h with ((h | h) | h) | h
      · exact ⟨(ih1 h).1, Or.inl (Or.inl (Or.inl (ih1 h).2))⟩
      · exact ⟨(ih2 h).1, Or.inl (Or.inl (Or.inr (ih2 h).2))⟩
      · exact ⟨(ih3 h).1, Or.inl (Or.inr (ih3 h).2)⟩
      · exact ⟨(ih4 h).1, Or.inr (ih4 h).2⟩

/-- C1 amended: query_objects_in is sound but not complete with respect to
the brute-force filter: every object it returns satisfies the overlap
predicate against the query rectangle and is stored in the tree (set
equality with the brute-force filter of all inserted objects fails, because
an inserted object straddling the seam between quadrants is silently
dropped at insertion, as c1_counterexample shows). -/
theorem c1_query_sound_subset (t : QuadTree) (q : Rectangle) (o : Obj)
    (h : o ∈ t.query_objects_in q) :
    q.is_rect_overlap o = true ∧ o ∈ t.all_objects := by
  simp only [QuadTree.query_objects_in, List.mem_append] at h
  simp only [QuadTree.all_objects, List.mem_append]
  rcases h with ((h | h) | h) | h <;> split at h
  · exact ⟨(tree_query_sound _ q o h).1,
      Or.inl (Or.inl (Or.inl (tree_query_sound _ q o h).2))⟩
  · simp at h
  · exact ⟨(tree_query_sound _ q o h).1,
      Or.inl (Or.inl (Or.inr (tree_query_sound _ q o h).2))⟩
  · simp at h
  · exact ⟨(tree_query_sound _ q o h).1,
      Or.inl (Or.inr (tree_query_sound _ q o h).2)⟩
  · simp at h
  · exact ⟨(tree_query_sound _ q o h).1, Or.inr (tree_query_sound _ q o h).2⟩
  · simp at h

/-- C1 amended witness: the midpoint circle is returned by a query covering
the whole region, overlaps that query rectangle, and is stored in the tree. -/
theorem c1_query_sound_subset_witness :
    Rectangle.is_rect_overlap queryAll midCircle = true ∧
    midCircle ∈ QuadTree.all_objects midCircleTree :=
  c1_query_sound_subset midCircleTree queryAll midCircle (by decide)

-- --------------------
-- C3: the insertion recursion of the source does not terminate
-- --------------------

/-- Inserting into a non-full leaf appends to its bucket. -/
theorem insert_push (f : Nat) (d : Int) (s : TreeSurface) (objs : List Obj) (o : Obj)
    (h : objs.length ≠ MAX_OBJECTS_PER_NODE) :
    TreeNode.insert_object (f + 1) (.leaf d s objs) o = some (.leaf d s (objs ++ [o])) := by
  rw [TreeNode.insert_object, if_neg h]

/-- Inserting into a full leaf splits it unconditionally and redistributes
all five objects into the four fresh children. -/
theorem insert_full (f : Nat) (d : Int) (s : TreeSurface) (objs : List Obj) (o : Obj)
    (h : objs.length = MAX_OBJECTS_PER_NODE) :
    TreeNode.insert_object (f + 1) (.leaf d s objs) o =
      (switchFold (TreeNode.insert_object f) s (objs ++ [o])
          (.leaf (d + 1) ⟨s.x0, s.y0, s.mx - 1, s.my - 1⟩ [],
           .leaf (d + 1) ⟨s.mx, s.y0, s.x1, s.my - 1⟩ [],
           .leaf (d + 1) ⟨s.x0, s.my, s.mx - 1, s.y1⟩ [],
           .leaf (d + 1) ⟨s.mx, s.my, s.x1, s.y1⟩ [])).map
        (fun c => .internal d s c.1 c.2.1 c.2.2.1 c.2.2.2) := by
  rw [TreeNode.insert_object, if_pos h]

/-- One redistribution step for an object assigned only to quadrant 3. -/
theorem switchFold_cons3 (ins : TreeNode → Obj → Option TreeNode) (S : TreeSurface)
    (o : Obj) (rest : List Obj) (c0 c1 c2 c3 : TreeNode)
    (h : assign_object_to_grid S o = [3]) :
    switchFold ins S (o :: rest) (c0, c1, c2, c3) =
      (ins c3 o).bind (fun x => switchFold ins S rest (c0, c1, c2, x)) := by
  rw [switchFold, h]
  cases hx : ins c3 o <;> simp [insertGridList, insertAt, hx]

/-- One redistribution step for an object assigned only to quadrant 0. -/
theorem switchFold_cons0 (ins : TreeNode → Obj → Option TreeNode) (S : TreeSurface)
    (o : Obj) (rest : List Obj) (c0 c1 c2 c3 : TreeNode)
    (h : assign_object_to_grid S o = [0]) :
    switchFold ins S (o :: rest) (c0, c1, c2, c3) =
      (ins c0 o).bind (fun x => switchFold ins S rest (x, c1, c2, c3)) := by
  rw [switchFold, h]
  cases hx : ins c0 o <;> simp [insertGridList, insertAt, hx]

/-- If five objects each land only in quadrant 3 of a full leaf, and
inserting the fifth into the resulting full fourth child never returns,
then inserting the fifth into the full leaf never returns either: the split
only reproduces the same situation one level down. -/
theorem diverge_step3 (S : TreeSurface) (o0 o1 o2 o3 o4 : Obj)
    (h0 : assign_object_to_grid S o0 = [3])
    (h1 : assign_object_to_grid S o1 = [3])
    (h2 : assign_object_to_grid S o2 = [3])
    (h3 : assign_object_to_grid S o3 = [3])
    (h4 : assign_object_to_grid S o4 = [3])
    (f : Nat)
    (hprev : ∀ d : Int, TreeNode.insert_object f
      (.leaf d ⟨S.mx, S.my, S.x1, S.y1⟩ [o0, o1, o2, o3]) o4 = none) :
    ∀ d : Int,
      TreeNode.insert_object (f + 1) (.leaf d S [o0, o1, o2, o3]) o4 = none := by
  intro d
  rw [insert_full f d S [o0, o1, o2, o3] o4 rfl]
  simp only [List.cons_append, List.nil_append]
  cases f with
  | zero =>
      rw [switchFold_cons3 _ _ _ _ _ _ _ _ h0]
      simp [TreeNode.insert_object]
  | succ f2 =>
      rw [switchFold_cons3 _ _ _ _ _ _ _ _ h0,
        insert_push f2 _ _ [] o0 (by decide)]
      simp only [Option.some_bind, List.nil_append]
      rw [switchFold_cons3 _ _ _ _ _ _ _ _ h1,
        insert_push f2 _ _ [o0] o1 (by simp [MAX_OBJECTS_PER_NODE])]
      simp only [Option.some_bind, List.cons_append, List.nil_append]
      rw [switchFold_cons3 _ _ _ _ _ _ _ _ h2,
        insert_push f2 _ _ [o0, o1] o2 (by simp [MAX_OBJECTS_PER_NODE])]
      simp only [Option.some_bind, List.cons_append, List.nil_append]
      rw [switchFold_cons3 _ _ _ _ _ _ _ _ h3,
        insert_push f2 _ _ [o0, o1, o2] o3 (by simp [MAX_OBJECTS_PER_NODE])]
      simp only [Option.some_bind, List.cons_append, List.nil_append]
      rw [switchFold_cons3 _ _ _ _ _ _ _ _ h4, hprev (d + 1)]
      simp

/-- Same as diverge_step3, for five objects landing only in quadrant 0. -/
theorem diverge_step0 (S : TreeSurface) (o0 o1 o2 o3 o4 : Obj)
    (h0 : assign_object_to_grid S o0 = [0])
    (h1 : assign_object_to_grid S o1 = [0])
    (h2 : assign_object_to_grid S o2 = [0])
    (h3 : assign_object_to_grid S o3 = [0])
    (h4 : assign_object_to_grid S o4 = [0])
    (f : Nat)
    (hprev : ∀ d : Int, TreeNode.insert_object f
      (.leaf d ⟨S.x0, S.y0, S.mx - 1, S.my - 1⟩ [o0, o1, o2, o3]) o4 = none) :
    ∀ d : Int,
      TreeNode.insert_object (f + 1) (.leaf d S [o0, o1, o2, o3]) o4 = none := by
  intro d
  rw [insert_full f d S [o0, o1, o2, o3] o4 rfl]
  simp only [List.cons_append, List.nil_append]
  cases f with
  | zero =>
      rw [switchFold_cons0 _ _ _ _ _ _ _ _ h0]
      simp [TreeNode.insert_object]
  | succ f2 =>
      rw [switchFold_cons0 _ _ _ _ _ _ _ _ h0,
        insert_push f2 _ _ [] o0 (by decide)]
      simp only [Option.some_bind, List.nil_append]
      rw [switchFold_cons0 _ _ _ _ _ _ _ _ h1,
        insert_push f2 _ _ [o0] o1 (by simp [MAX_OBJECTS_PER_NODE])]
      simp only [Option.some_bind, List.cons_append, List.nil_append]
      rw [switchFold_cons0 _ _ _ _ _ _ _ _ h2,
        insert_push f2 _ _ [o0, o1] o2 (by simp [MAX_OBJECTS_PER_NODE])]
      simp only [Option.some_bind, List.cons_append, List.nil_append]
      rw [switchFold_cons0 _ _ _ _ _ _ _ _ h3,
        insert_push f2 _ _ [o0, o1, o2] o3 (by simp [MAX_OBJECTS_PER_NODE])]
      simp only [Option.some_bind, List.cons_append, List.nil_append]
      rw [switchFold_cons0 _ _ _ _ _ _ _ _ h4, hprev (d + 1)]
      simp

/-- Five point agents all at (10,10), with distinct identities. -/
def cb0 : Obj := Obj.boid 0 10 10

def cb1 : Obj := Obj.boid 1 10 10

def cb2 : Obj := Obj.boid 2 10 10

def cb3 : Obj := Obj.boid 3 10 10

def cb4 : Obj := Obj.boid 4 10 10

/-- Base of the divergence chain: the region (9,9)-(10,10) is its own
fourth quadrant, so splitting it reproduces it verbatim and the insertion
recursion never bottoms out. -/
theorem divergeRG : ∀ (f : Nat) (d : Int),
    TreeNode.insert_object f (.leaf d ⟨9, 9, 10, 10⟩ [cb0, cb1, cb2, cb3]) cb4 = none := by
  intro f
  induction f with
  | zero => intro d; rfl
  | succ f2 ih =>
      exact diverge_step3 ⟨9, 9, 10, 10⟩ cb0 cb1 cb2 cb3 cb4
        (by decide) (by decide) (by decide) (by decide) (by decide) f2 ih

theorem divergeRF : ∀ (f : Nat) (d : Int),
    TreeNode.insert_object f (.leaf d ⟨8, 8, 10, 10⟩ [cb0, cb1, cb2, cb3]) cb4 = none := by
  intro f
  cases f with
  | zero => intro d; rfl
  | succ f2 =>
      exact diverge_step3 ⟨8, 8, 10, 10⟩ cb0 cb1 cb2 cb3 cb4
        (by decide) (by decide) (by decide) (by decide) (by decide) f2 (divergeRG f2)

theorem divergeRE : ∀ (f : Nat) (d : Int),
    TreeNode.insert_object f (.leaf d ⟨7, 7, 10, 10⟩ [cb0, cb1, cb2, cb3]) cb4 = none := by
  intro f
  cases f with
  | zero => intro d; rfl
  | succ f2 =>
      exact diverge_step3 ⟨7, 7, 10, 10⟩ cb0 cb1 cb2 cb3 cb4
        (by decide) (by decide) (by decide) (by decide) (by decide) f2 (divergeRF f2)

theorem divergeRD : ∀ (f : Nat) (d : Int),
    TreeNode.insert_object f (.leaf d ⟨5, 5, 10, 10⟩ [cb0, cb1, cb2, cb3]) cb4 = none := by
  intro f
  cases f with
  | zero => intro d; rfl
  | succ f2 =>
      exact diverge_step3 ⟨5, 5, 10, 10⟩ cb0 cb1 cb2 cb3 cb4
        (by decide) (by decide) (by decide) (by decide) (by decide) f2 (divergeRE f2)

theorem divergeRC : ∀ (f : Nat) (d : Int),
    TreeNode.insert_object f (.leaf d ⟨0, 0, 10, 10⟩ [cb0, cb1, cb2, cb3]) cb4 = none := by
  intro f
  cases f with
  | zero => intro d; rfl
  | succ f2 =>
      exact diverge_step3 ⟨0, 0, 10, 10⟩ cb0 cb1 cb2 cb3 cb4
        (by decide) (by decide) (by decide) (by decide) (by decide) f2 (divergeRD f2)

theorem divergeRB : ∀ (f : Nat) (d : Int),
    TreeNode.insert_object f (.leaf d ⟨0, 0, 23, 23⟩ [cb0, cb1, cb2, cb3]) cb4 = none := by
  intro f
  cases f with
  | zero => intro d; rfl
  | succ f2 =>
      exact diverge_step0 ⟨0, 0, 23, 23⟩ cb0 cb1 cb2 cb3 cb4
        (by decide) (by decide) (by decide) (by decide) (by decide) f2 (divergeRC f2)

theorem divergeRA : ∀ (f : Nat) (d : Int),
    TreeNode.insert_object f (.leaf d ⟨0, 0, 49, 49⟩ [cb0, cb1, cb2, cb3]) cb4 = none := by
  intro f
  cases f with
  | zero => intro d; rfl
  | succ f2 =>
      exact diverge_step0 ⟨0, 0, 49, 49⟩ cb0 cb1 cb2 cb3 cb4
        (by decide) (by decide) (by decide) (by decide) (by decide) f2 (divergeRB f2)

/-- The tree reached by inserting four coincident agents at (10,10) into a
fresh (0,0)-(100,100) index: the top-left leaf is full. -/
def coincidentTree : QuadTree :=
  ⟨.leaf 1 ⟨0, 0, 49, 49⟩ [cb0, cb1, cb2, cb3],
   .leaf 1 ⟨50, 0, 100, 49⟩ [],
   .leaf 1 ⟨0, 50, 49, 100⟩ [],
   .leaf 1 ⟨50, 50, 100, 100⟩ [],
   ⟨0, 0, 100, 100⟩⟩

/-- C3: insertion does NOT terminate for every finite sequence of
insertions: after four successful insertions of coincident point agents,
inserting a fifth coincident agent makes the source recursion split leaves
forever (no fuel suffices), because there is no guard that lets a full leaf
overflow past K when splitting cannot separate the objects. -/
theorem c3_insert_nonterminating :
    QuadTree.insert_seq 5 fresh100 [cb0, cb1, cb2, cb3] = some coincidentTree ∧
    ∀ fuel : Nat, QuadTree.insert_object fuel coincidentTree cb4 = none := by
  refine ⟨by decide, fun fuel => ?_⟩
  have hg : assign_object_to_grid coincidentTree.surface cb4 = [0] := by decide
  have htl : TreeNode.insert_object fuel coincidentTree.top_left cb4 = none :=
    divergeRA fuel 1
  simp [QuadTree.insert_object, hg, htl]
